import Mathlib

/-!
Verification of the timeline compositor, audio-scheduling engine and capture
pipeline of the `VideoCanvas` component.

The repository contains several evolutionary snapshots of the same component
(`src/unnamed/part_003`, `part_004`, `part_005`); `part_004` is the newest one
(it is the only snapshot with per-scene transition styles, asset validation,
narration stop-pinning and the pre and post roll guards).  Definitions below embed
`part_004`; where an older snapshot differs in a way a claim depends on, the
older variant is embedded as well under a `003` suffix.

Times and durations are JS numbers in the source; they are modelled as
rationals (`ℚ`), floating-point rounding being outside the scope of this
development (the specification itself only asks for equality "within
floating-point tolerance").
-/

/-- Transition styles, from the `transitionType` enum
(`fade`, `slide`, `zoom`, `blur`, `dissolve`). -/
inductive TransitionType
  | fade | slide | zoom | blur | dissolve
deriving DecidableEq, Repr

/-- `ScriptScene` from `types.ts`, together with the optional
`transitionType` and `isHook` fields used by `part_004`
(`isHook` is optional in TS; an absent field is falsy, so it is modelled
as a `Bool` that defaults to `false`). -/
structure ScriptScene where
  id : Int
  durationEstimate : ℚ
  transitionType : Option TransitionType := none
  isHook : Bool := false
deriving DecidableEq, Repr

/-- A decoded audio buffer; only its `duration` is read by the core. -/
structure AudioBuf where
  duration : ℚ
deriving DecidableEq, Repr

/-- The fields of an `HTMLImageElement` that `validateAssets` and the
renderer read. -/
structure ImageElement where
  complete : Bool
  naturalWidth : Nat
deriving DecidableEq, Repr

/-- `GeneratedAsset.status` from `types.ts`. -/
inductive AssetStatus
  | pending | loading | completed | error
deriving DecidableEq, Repr

/-- `GeneratedAsset` from `types.ts` (the url strings are never read by the
core and are omitted). -/
structure GeneratedAsset where
  sceneId : Int
  audioBuffer : Option AudioBuf := none
  imageElement : Option ImageElement := none
  status : AssetStatus
deriving DecidableEq, Repr

/-- `Record<number, GeneratedAsset>`: a partial map from scene id to asset. -/
abbrev Assets := Int → Option GeneratedAsset

/-- A derived timeline entry: the source spreads the scene into the entry
(`{ ...scene, start, duration, end: cursor }`); here the scene is kept as a
field.  `end` is a Lean keyword, so the field is named `endTime`. -/
structure TimelineEntry where
  scene : ScriptScene
  start : ℚ
  duration : ℚ
  endTime : ℚ
deriving DecidableEq, Repr

instance : Inhabited TimelineEntry :=
  ⟨{ scene := { id := 0, durationEstimate := 0 }, start := 0, duration := 0, endTime := 0 }⟩

/-- The `let cursor = 0; scenes.map(...)` accumulation common to every
`getTimeline` snapshot, parameterized by how a scene's duration is computed
(the only point where the snapshots differ). -/
def buildEntries (dur : ScriptScene → ℚ) : ℚ → List ScriptScene → List TimelineEntry
  | _, [] => []
  | cursor, s :: rest =>
    let d := dur s
    { scene := s, start := cursor, duration := d, endTime := cursor + d }
      :: buildEntries dur (cursor + d) rest

/-- `getTimeline` of `part_004` (lines 45–53): the duration of a scene is
`scene.durationEstimate`; the asset map is not consulted. -/
def getTimeline (scenes : List ScriptScene) : List TimelineEntry :=
  buildEntries (fun s => s.durationEstimate) 0 scenes

/-- The per-scene duration of the `part_003` snapshot (line 51):
`asset?.audioBuffer?.duration || scene.durationEstimate`.  JS `||` falls
back when the left side is falsy, i.e. also when the decoded duration is
`0`. -/
def sceneDuration003 (assets : Assets) (s : ScriptScene) : ℚ :=
  match (assets s.id).bind GeneratedAsset.audioBuffer with
  | some b => if b.duration = 0 then s.durationEstimate else b.duration
  | none => s.durationEstimate

/-- `getTimeline` of the `part_003` snapshot (lines 47–56). -/
def getTimeline003 (assets : Assets) (scenes : List ScriptScene) : List TimelineEntry :=
  buildEntries (sceneDuration003 assets) 0 scenes

/-- `totalDuration` of `part_004` (line 55):
`getTimeline()[getTimeline().length - 1]?.end || 0`.
When the last entry's `end` is `0` the JS `|| 0` also yields `0`,
the same value, so the falsiness of `||` is value-irrelevant here. -/
def totalDuration (scenes : List ScriptScene) : ℚ :=
  match (getTimeline scenes).getLast? with
  | some e => e.endTime
  | none => 0

/-- `totalDuration` computed over the `part_003` timeline (line 58). -/
def totalDuration003 (assets : Assets) (scenes : List ScriptScene) : ℚ :=
  match (getTimeline003 assets scenes).getLast? with
  | some e => e.endTime
  | none => 0

namespace Timeline

theorem first_buildEntries (dur : ScriptScene → ℚ) (c : ℚ) (ss : List ScriptScene) :
    ∀ e, (buildEntries dur c ss)[0]? = some e → e.start = c := by
  cases ss with
  | nil => intro e h; simp [buildEntries] at h
  | cons s rest =>
      intro e h
      simp [buildEntries] at h
      rw [← h]

theorem mem_buildEntries (dur : ScriptScene → ℚ) :
    ∀ (c : ℚ) (ss : List ScriptScene), ∀ e ∈ buildEntries dur c ss,
      e.duration = dur e.scene ∧ e.endTime = e.start + e.duration := by
  intro c ss
  induction ss generalizing c with
  | nil => intro e h; simp [buildEntries] at h
  | cons s rest ih =>
      intro e h
      simp only [buildEntries, List.mem_cons] at h
      rcases h with h | h
      · subst h; exact ⟨rfl, rfl⟩
      · exact ih _ e h

theorem chain_buildEntries (dur : ScriptScene → ℚ) :
    ∀ (c : ℚ) (ss : List ScriptScene) (i : ℕ) (e₁ e₂ : TimelineEntry),
      (buildEntries dur c ss)[i]? = some e₁ →
      (buildEntries dur c ss)[i + 1]? = some e₂ →
      e₁.endTime = e₂.start := by
  intro c ss
  induction ss generalizing c with
  | nil => intro i e₁ e₂ h₁ h₂; simp [buildEntries] at h₁
  | cons s rest ih =>
      intro i e₁ e₂ h₁ h₂
      cases i with
      | zero =>
          simp only [buildEntries, List.getElem?_cons_zero, Option.some.injEq] at h₁
          simp only [buildEntries, List.getElem?_cons_succ] at h₂
          rw [← h₁, first_buildEntries dur (c + dur s) rest e₂ h₂]
      | succ j =>
          simp only [buildEntries, List.getElem?_cons_succ] at h₁ h₂
          exact ih _ j e₁ e₂ h₁ h₂

end Timeline

/-- Concrete example from the specification: three scenes with
durations `[4, 3, 5]`. -/
def exScenes : List ScriptScene :=
  [ { id := 1, durationEstimate := 4 },
    { id := 2, durationEstimate := 3 },
    { id := 3, durationEstimate := 5 } ]

/-- An asset map with decoded audio and images for `exScenes`. -/
def exAssets : Assets := fun i =>
  if i = 1 then
    some { sceneId := 1, audioBuffer := some ⟨4⟩,
           imageElement := some ⟨true, 100⟩, status := .completed }
  else if i = 2 then
    some { sceneId := 2, audioBuffer := some ⟨3⟩,
           imageElement := some ⟨true, 100⟩, status := .completed }
  else if i = 3 then
    some { sceneId := 3, audioBuffer := some ⟨5⟩,
           imageElement := some ⟨true, 100⟩, status := .completed }
  else none

/-- **C1.** For every list of scenes (and, for the `part_003` variant, every
asset map) the timeline is anchored at zero (`entries[0].start = 0`),
contiguous (`entries[i].end = entries[i+1].start`), each entry satisfies
`end = start + duration`, and `totalDuration` is `0` for an empty scene list
and otherwise equals the last entry's `end`. -/
theorem timeline_contiguous_anchored (scenes : List ScriptScene) (assets : Assets) :
    (∀ e, (getTimeline scenes)[0]? = some e → e.start = 0) ∧
    (∀ (i : ℕ) (e₁ e₂ : TimelineEntry),
      (getTimeline scenes)[i]? = some e₁ → (getTimeline scenes)[i + 1]? = some e₂ →
      e₁.endTime = e₂.start) ∧
    (∀ e ∈ getTimeline scenes, e.endTime = e.start + e.duration) ∧
    (scenes = [] → totalDuration scenes = 0) ∧
    (∀ h : getTimeline scenes ≠ [],
      totalDuration scenes = ((getTimeline scenes).getLast h).endTime) ∧
    (∀ e, (getTimeline003 assets scenes)[0]? = some e → e.start = 0) ∧
    (∀ (i : ℕ) (e₁ e₂ : TimelineEntry),
      (getTimeline003 assets scenes)[i]? = some e₁ →
      (getTimeline003 assets scenes)[i + 1]? = some e₂ →
      e₁.endTime = e₂.start) ∧
    (∀ e ∈ getTimeline003 assets scenes, e.endTime = e.start + e.duration) ∧
    (scenes = [] → totalDuration003 assets scenes = 0) ∧
    (∀ h : getTimeline003 assets scenes ≠ [],
      totalDuration003 assets scenes =
        ((getTimeline003 assets scenes).getLast h).endTime) := by
  refine ⟨Timeline.first_buildEntries _ 0 scenes,
          Timeline.chain_buildEntries _ 0 scenes,
          fun e h => (Timeline.mem_buildEntries _ 0 scenes e h).2,
          ?_, ?_,
          Timeline.first_buildEntries _ 0 scenes,
          Timeline.chain_buildEntries _ 0 scenes,
          fun e h => (Timeline.mem_buildEntries _ 0 scenes e h).2,
          ?_, ?_⟩
  · intro h; subst h; rfl
  · intro h
    unfold totalDuration
    rw [List.getLast?_eq_getLast_of_ne_nil h]
  · intro h; subst h; rfl
  · intro h
    unfold totalDuration003
    rw [List.getLast?_eq_getLast_of_ne_nil h]

/-- **C1 witness.** The contiguity theorem instantiated on the concrete
three-scene example (`[4, 3, 5]`): entry 0 ends where entry 1 starts, the
first entry starts at `0`, and `totalDuration = 12`. -/
theorem timeline_contiguous_anchored_witness :
    (getTimeline exScenes)[0]? = some ⟨{ id := 1, durationEstimate := 4 }, 0, 4, 4⟩ ∧
    (getTimeline exScenes)[1]? = some ⟨{ id := 2, durationEstimate := 3 }, 4, 3, 7⟩ ∧
    (⟨{ id := 1, durationEstimate := 4 }, 0, 4, 4⟩ : TimelineEntry).endTime =
      (⟨{ id := 2, durationEstimate := 3 }, 4, 3, 7⟩ : TimelineEntry).start ∧
    totalDuration exScenes =
      ((getTimeline exScenes).getLast (by simp [getTimeline, exScenes, buildEntries])).endTime := by
  refine ⟨by norm_num [getTimeline, exScenes, buildEntries],
          by norm_num [getTimeline, exScenes, buildEntries], ?_, ?_⟩
  · exact (timeline_contiguous_anchored exScenes exAssets).2.1 0 _ _
      (by norm_num [getTimeline, exScenes, buildEntries])
      (by norm_num [getTimeline, exScenes, buildEntries])
  · exact (timeline_contiguous_anchored exScenes exAssets).2.2.2.2.1
      (by simp [getTimeline, exScenes, buildEntries])

/-- One narration source node created by `scheduleAudio` (`part_004`
lines 111–137): its position `idx` in the timeline, the buffer it plays, the
absolute audio-clock instant it starts at, the sample offset it starts
reading from, and the absolute instant it is stopped at.
`source.start(0, offset)` with `0 < ctx.currentTime` begins immediately,
i.e. at `ctx.currentTime` (Web Audio clamps a start time in the past to
the current time). -/
structure NarrClip where
  idx : Nat
  sceneId : Int
  bufDuration : ℚ
  graphStartTime : ℚ
  sourcePlayOffset : ℚ
  stopTime : ℚ
deriving DecidableEq, Repr

/-- The looping background-music source (`part_004` lines 98–109). -/
structure BgClip where
  bufDuration : ℚ
  sourcePlayOffset : ℚ
  gainValue : ℚ
  loop : Bool
deriving DecidableEq, Repr

/-- A source node pushed onto `activeSourcesRef`. -/
inductive ScheduledSource
  | bg (c : BgClip)
  | narr (c : NarrClip)
deriving DecidableEq, Repr

/-- JS remainder `a % b` (truncating division). -/
def jsMod (a b : ℚ) : ℚ :=
  a - b * (if 0 ≤ a / b then ((⌊a / b⌋ : ℤ) : ℚ) else ((⌈a / b⌉ : ℤ) : ℚ))

/-- The narration source created for the `idx`-th timeline entry by the
`timeline.forEach` body of `scheduleAudio` (`part_004` lines 111–136), or
`none` when the body pushes nothing:
no source without a decoded `audioBuffer`; a future entry
(`delay = item.start - startOffset >= 0`) starts at
`ctx.currentTime + delay` from sample offset `0`; an in-progress entry
(`item.end > startOffset`) starts immediately from sample offset
`startOffset - item.start`; both are stopped at
`ctx.currentTime + item.end - startOffset`. -/
def narrClipFor (assets : Assets) (startOffset ctxNow : ℚ) (i : Nat)
    (item : TimelineEntry) : Option NarrClip :=
  match (assets item.scene.id).bind GeneratedAsset.audioBuffer with
  | none => none
  | some buf =>
    if 0 ≤ item.start - startOffset then
      some { idx := i, sceneId := item.scene.id, bufDuration := buf.duration,
             graphStartTime := ctxNow + (item.start - startOffset),
             sourcePlayOffset := 0,
             stopTime := ctxNow + item.endTime - startOffset }
    else if startOffset < item.endTime then
      some { idx := i, sceneId := item.scene.id, bufDuration := buf.duration,
             graphStartTime := ctxNow,
             sourcePlayOffset := startOffset - item.start,
             stopTime := ctxNow + (item.endTime - startOffset) }
    else none

/-- All narration sources created by one `scheduleAudio` pass, in timeline
order (the `forEach` pushes at most one source per entry). -/
def scheduleNarration (assets : Assets) (tl : List TimelineEntry)
    (startOffset ctxNow : ℚ) : List NarrClip :=
  (tl.enumFrom 0).filterMap fun p => narrClipFor assets startOffset ctxNow p.1 p.2

/-- The component's props that the scheduling/rendering core reads. -/
structure Env where
  scenes : List ScriptScene
  assets : Assets
  bgMusicBuffer : Option AudioBuf
  width : ℚ
  height : ℚ

/-- `scheduleAudio` of `part_004` (lines 93–137): the optional looping
background source (gain `0.15`, read position `startOffset % bg.duration`)
followed by the narration sources. -/
def scheduleAudio (env : Env) (startOffset ctxNow : ℚ) : List ScheduledSource :=
  (match env.bgMusicBuffer with
   | some bg =>
     [ScheduledSource.bg
        { bufDuration := bg.duration,
          sourcePlayOffset := jsMod startOffset bg.duration,
          gainValue := 15/100, loop := true }]
   | none => []) ++
  (scheduleNarration env.assets (getTimeline env.scenes) startOffset ctxNow).map
    ScheduledSource.narr

/-- The narration sources of one scheduling pass that belong to timeline
entry `i`. -/
def clipsFor (plan : List NarrClip) (i : Nat) : List NarrClip :=
  plan.filter (fun c => c.idx == i)

namespace Sched

theorem narrClipFor_idx (assets : Assets) (t0 now : ℚ) (i : Nat)
    (item : TimelineEntry) (c : NarrClip) :
    narrClipFor assets t0 now i item = some c → c.idx = i := by
  intro h
  unfold narrClipFor at h
  split at h
  · exact absurd h (by simp)
  · split at h
    · cases h; rfl
    · split at h
      · cases h; rfl
      · exact absurd h (by simp)

theorem filter_clips_lt (assets : Assets) (t0 now : ℚ) :
    ∀ (tl : List TimelineEntry) (n i : Nat), i < n →
      ((tl.enumFrom n).filterMap fun p => narrClipFor assets t0 now p.1 p.2).filter
        (fun c => c.idx == i) = [] := by
  intro tl
  induction tl with
  | nil => intro n i h; simp
  | cons item rest ih =>
      intro n i h
      cases hc : narrClipFor assets t0 now n item with
      | none =>
          simp only [List.enumFrom_cons, List.filterMap_cons, hc]
          exact ih (n + 1) i (Nat.lt_succ_of_lt h)
      | some c =>
          have hidx : c.idx = n := narrClipFor_idx assets t0 now n item c hc
          simp only [List.enumFrom_cons, List.filterMap_cons, hc]
          rw [List.filter_cons_of_neg (by simp [hidx]; omega)]
          exact ih (n + 1) i (Nat.lt_succ_of_lt h)

theorem filter_clips_get (assets : Assets) (t0 now : ℚ) :
    ∀ (tl : List TimelineEntry) (n j : Nat) (item : TimelineEntry),
      tl[j]? = some item →
      ((tl.enumFrom n).filterMap fun p => narrClipFor assets t0 now p.1 p.2).filter
        (fun c => c.idx == n + j) =
        (narrClipFor assets t0 now (n + j) item).toList := by
  intro tl
  induction tl with
  | nil => intro n j item h; simp at h
  | cons hd rest ih =>
      intro n j item h
      cases j with
      | zero =>
          simp only [List.getElem?_cons_zero, Option.some.injEq] at h
          subst h
          simp only [Nat.add_zero]
          cases hc : narrClipFor assets t0 now n hd with
          | none =>
              simp only [List.enumFrom_cons, List.filterMap_cons, hc, Option.toList_none]
              exact filter_clips_lt assets t0 now rest (n + 1) n (Nat.lt_succ_self n)
          | some c =>
              have hidx : c.idx = n := narrClipFor_idx assets t0 now n hd c hc
              simp only [List.enumFrom_cons, List.filterMap_cons, hc, Option.toList_some]
              rw [List.filter_cons_of_pos (by simp [hidx])]
              rw [filter_clips_lt assets t0 now rest (n + 1) n (Nat.lt_succ_self n)]
      | succ k =>
          simp only [List.getElem?_cons_succ] at h
          have htail := ih (n + 1) k item h
          have harith : n + (k + 1) = (n + 1) + k := by omega
          cases hc : narrClipFor assets t0 now n hd with
          | none =>
              simp only [List.enumFrom_cons, List.filterMap_cons, hc]
              rw [harith]
              exact htail
          | some c =>
              have hidx : c.idx = n := narrClipFor_idx assets t0 now n hd c hc
              simp only [List.enumFrom_cons, List.filterMap_cons, hc]
              rw [List.filter_cons_of_neg (by simp [hidx])]
              rw [harith]
              exact htail

end Sched

/-- **C2.** Every narration clip created by `scheduleAudio` at playback
offset `t0` has `stopTime - graphStartTime = entry.end - max(entry.start, t0)`
for its timeline entry, independently of the buffer's own length, and its
stop instant corresponds to timeline position `entry.end`
(`stopTime = now + (entry.end - t0)`), so the clip never sounds past its
scene's end. -/
theorem narration_stop_pinned (scenes : List ScriptScene) (assets : Assets)
    (t0 now : ℚ) :
    ∀ c ∈ scheduleNarration assets (getTimeline scenes) t0 now,
      ∃ e, (getTimeline scenes)[c.idx]? = some e ∧
        c.stopTime - c.graphStartTime = e.endTime - max e.start t0 ∧
        c.stopTime = now + (e.endTime - t0) := by
  intro c hc
  unfold scheduleNarration at hc
  rcases List.mem_filterMap.mp hc with ⟨⟨i, item⟩, hp, hf⟩
  have hidx : (getTimeline scenes)[i]? = some item := by
    have h2 := (List.mk_mem_enumFrom_iff_le_and_getElem?_sub).mp hp
    simpa using h2.2
  rcases hOb : (assets item.scene.id).bind GeneratedAsset.audioBuffer with _ | buf
  · simp only [narrClipFor, hOb] at hf
    exact absurd hf (by simp)
  · simp only [narrClipFor, hOb] at hf
    by_cases h₁ : (0 : ℚ) ≤ item.start - t0
    · rw [if_pos h₁] at hf
      cases hf
      refine ⟨item, hidx, ?_, by ring⟩
      have hmax : max item.start t0 = item.start := max_eq_left (by linarith)
      show (now + item.endTime - t0) - (now + (item.start - t0)) =
        item.endTime - max item.start t0
      rw [hmax]; ring
    · rw [if_neg h₁] at hf
      by_cases h₂ : t0 < item.endTime
      · rw [if_pos h₂] at hf
        cases hf
        refine ⟨item, hidx, ?_, by ring⟩
        have hmax : max item.start t0 = t0 := max_eq_right (by linarith)
        show (now + (item.endTime - t0)) - now = item.endTime - max item.start t0
        rw [hmax]; ring
      · rw [if_neg h₂] at hf
        exact absurd hf (by simp)

/-- The concrete narration clip `scheduleAudio` creates for example entry 0
at `t0 = 1.5` (in progress, so it starts immediately from offset `1.5`). -/
def exClipC2 : NarrClip :=
  { idx := 0, sceneId := 1, bufDuration := 4, graphStartTime := 10,
    sourcePlayOffset := 3/2, stopTime := 10 + (4 - 3/2) }

/-- **C2 witness.** The stop-pinning theorem applied to the concrete clip
that `scheduleAudio` creates for the first example entry at `t0 = 1.5`. -/
theorem narration_stop_pinned_witness :
    exClipC2 ∈ scheduleNarration exAssets (getTimeline exScenes) (3/2) 10 ∧
    ∃ e, (getTimeline exScenes)[exClipC2.idx]? = some e ∧
      exClipC2.stopTime - exClipC2.graphStartTime = e.endTime - max e.start (3/2) ∧
      exClipC2.stopTime = 10 + (e.endTime - 3/2) := by
  have hmem : exClipC2 ∈ scheduleNarration exAssets (getTimeline exScenes) (3/2) 10 := by
    norm_num [scheduleNarration, narrClipFor, getTimeline, buildEntries, exScenes,
      exAssets, exClipC2, List.enumFrom_cons, List.filterMap_cons]
  exact ⟨hmem, narration_stop_pinned exScenes exAssets (3/2) 10 _ hmem⟩

/-- **C3.** Provided the entry has a decoded narration buffer and a positive
duration, `scheduleAudio` at offset `t0` creates exactly one narration clip
for a timeline entry with `entry.start >= t0` (starting at
`now + (entry.start - t0)` from sample offset `0`), exactly one for an
in-progress entry (`entry.start < t0 < entry.end`, starting immediately from
sample offset `t0 - entry.start`), and none for an entry with
`entry.end <= t0`. -/
theorem scheduleAudio_exactly_one_clip (scenes : List ScriptScene)
    (assets : Assets) (t0 now : ℚ) (i : ℕ) (e : TimelineEntry) (buf : AudioBuf)
    (htl : (getTimeline scenes)[i]? = some e)
    (hbuf : (assets e.scene.id).bind GeneratedAsset.audioBuffer = some buf)
    (hdur : 0 < e.duration) :
    (t0 ≤ e.start →
      clipsFor (scheduleNarration assets (getTimeline scenes) t0 now) i =
        [{ idx := i, sceneId := e.scene.id, bufDuration := buf.duration,
           graphStartTime := now + (e.start - t0), sourcePlayOffset := 0,
           stopTime := now + e.endTime - t0 }]) ∧
    (e.start < t0 → t0 < e.endTime →
      clipsFor (scheduleNarration assets (getTimeline scenes) t0 now) i =
        [{ idx := i, sceneId := e.scene.id, bufDuration := buf.duration,
           graphStartTime := now, sourcePlayOffset := t0 - e.start,
           stopTime := now + (e.endTime - t0) }]) ∧
    (e.endTime ≤ t0 →
      clipsFor (scheduleNarration assets (getTimeline scenes) t0 now) i = []) := by
  have hkey : clipsFor (scheduleNarration assets (getTimeline scenes) t0 now) i =
      (narrClipFor assets t0 now i e).toList := by
    have h := Sched.filter_clips_get assets t0 now (getTimeline scenes) 0 i e htl
    simpa [clipsFor, scheduleNarration] using h
  have hmem : e ∈ getTimeline scenes := List.mem_iff_getElem?.mpr ⟨i, htl⟩
  have hend : e.endTime = e.start + e.duration :=
    (Timeline.mem_buildEntries _ 0 scenes e hmem).2
  refine ⟨?_, ?_, ?_⟩
  · intro h1
    rw [hkey]
    simp only [narrClipFor, hbuf]
    rw [if_pos (by linarith)]
    rfl
  · intro h1 h2
    rw [hkey]
    simp only [narrClipFor, hbuf]
    rw [if_neg (by linarith), if_pos h2]
    rfl
  · intro h1
    rw [hkey]
    simp only [narrClipFor, hbuf]
    have hstart : e.start < t0 := by
      have : e.start < e.endTime := by rw [hend]; linarith
      linarith
    rw [if_neg (by linarith), if_neg (by linarith)]
    rfl

/-- **C3 witness.** The case analysis applied to example entry 1
(`[4,7)`, buffer present, duration `3 > 0`) at `t0 = 1.5`: exactly one
future-scheduled clip is created, starting at `now + (4 - 1.5)` from sample
offset `0`. -/
theorem scheduleAudio_exactly_one_clip_witness :
    (getTimeline exScenes)[1]? =
      some ⟨{ id := 2, durationEstimate := 3 }, 4, 3, 7⟩ ∧
    (0 : ℚ) < 3 ∧
    clipsFor (scheduleNarration exAssets (getTimeline exScenes) (3/2) 10) 1 =
      [{ idx := 1, sceneId := 2, bufDuration := 3,
         graphStartTime := 10 + (4 - 3/2), sourcePlayOffset := 0,
         stopTime := 10 + 7 - 3/2 }] := by
  refine ⟨by norm_num [getTimeline, buildEntries, exScenes], by norm_num, ?_⟩
  exact (scheduleAudio_exactly_one_clip exScenes exAssets (3/2) 10 1
    ⟨{ id := 2, durationEstimate := 3 }, 4, 3, 7⟩ ⟨3⟩
    (by norm_num [getTimeline, buildEntries, exScenes])
    (by norm_num [exAssets])
    (by norm_num)).1 (by norm_num)

/-- The Ken Burns draw of the active scene's image
(`drawScene(ctx, img, baseScale, 0, 0, 1)`, `part_004` lines 184–187). -/
structure KenBurnsDraw where
  sceneId : Int
  scale : ℚ
deriving DecidableEq, Repr

/-- The compositing draw of the next scene's image during a transition:
which image, which style, the progress `q` (`tProgress` in the source) and
the resulting `drawScene` parameters. -/
structure TransitionDraw where
  sceneId : Int
  style : TransitionType
  q : ℚ
  alpha : ℚ
  scale : ℚ
  xOff : ℚ
  blurPx : ℚ
deriving DecidableEq, Repr

/-- Everything one `renderCanvas` call paints, in paint order: the black
clear, the optional active-scene image, the optional transition composite,
the vignette, and the optional hook progress bar (its drawn width). -/
structure RenderOutput where
  cleared : Bool
  currentImage : Option KenBurnsDraw
  transition : Option TransitionDraw
  vignette : Bool
  hookBar : Option ℚ
deriving DecidableEq, Repr

/-- `asset?.imageElement && asset.imageElement.complete`
(the renderer does not check `naturalWidth`). -/
def imageDrawable (a? : Option GeneratedAsset) : Bool :=
  match a? with
  | none => false
  | some a =>
    match a.imageElement with
    | none => false
    | some img => img.complete

/-- The `switch (type)` of `part_004` lines 198–217: the `drawScene` call
(and canvas filter) used to composite the next scene's image for each
transition style at progress `q`. -/
def transitionDrawFor (ty : TransitionType) (q width : ℚ) (sceneId : Int) :
    TransitionDraw :=
  match ty with
  | .slide =>
    { sceneId, style := .slide, q, alpha := 1, scale := 1,
      xOff := width * (1 - q), blurPx := 0 }
  | .zoom =>
    { sceneId, style := .zoom, q, alpha := q, scale := 8/10 + q * (2/10),
      xOff := 0, blurPx := 0 }
  | .blur =>
    { sceneId, style := .blur, q, alpha := q, scale := 1, xOff := 0,
      blurPx := (1 - q) * 20 }
  | .dissolve =>
    { sceneId, style := .dissolve, q, alpha := q, scale := 1, xOff := 0,
      blurPx := 0 }
  | .fade =>
    { sceneId, style := .fade, q, alpha := q, scale := 1, xOff := 0,
      blurPx := 0 }

/-- `Array.prototype.findIndex`, as an index option. -/
def findIndex (p : TimelineEntry → Bool) : List TimelineEntry → Option Nat
  | [] => none
  | t :: rest => if p t then some 0 else (findIndex p rest).map (· + 1)

/-- `clampedTime = Math.min(time, totalDuration - 0.001)`
(`part_004` line 176). -/
def clampTime (env : Env) (time : ℚ) : ℚ :=
  min time (totalDuration env.scenes - 1/1000)

/-- `timeline.findIndex(t => clampedTime >= t.start && clampedTime < t.end)`
with the `-1 → timeline.length - 1` fallback (`part_004` lines 177–178). -/
def activeEntryIdx (tl : List TimelineEntry) (ct : ℚ) : Nat :=
  match findIndex (fun t => decide (t.start ≤ ct) && decide (ct < t.endTime)) tl with
  | some i => i
  | none => tl.length - 1

/-- The output of `renderCanvas` on an empty timeline: the surface is
cleared to black and nothing else is painted (the function returns right
after the clear, `part_004` line 174). -/
def blankFrame : RenderOutput :=
  { cleared := true, currentImage := none, transition := none,
    vignette := false, hookBar := none }

/-- `renderCanvas` of `part_004` (lines 164–232) as a pure function of the
props and `time`, returning what is painted. -/
def renderCanvas (env : Env) (time : ℚ) : RenderOutput :=
  let tl := getTimeline env.scenes
  if tl.isEmpty then blankFrame
  else
    let ct := clampTime env time
    let currentIdx := activeEntryIdx tl ct
    let currentScene := (tl[currentIdx]?).getD default
    let asset := env.assets currentScene.scene.id
    let progress := (ct - currentScene.start) / currentScene.duration
    let currentImage :=
      if imageDrawable asset then
        some ({ sceneId := currentScene.scene.id,
                scale := 1 + progress * (15/100) } : KenBurnsDraw)
      else none
    let transDur : ℚ := 8/10
    let transition :=
      if currentScene.endTime - ct < transDur ∧ currentIdx < tl.length - 1 then
        let nextScene := (tl[currentIdx + 1]?).getD default
        if imageDrawable (env.assets nextScene.scene.id) then
          some (transitionDrawFor (currentScene.scene.transitionType.getD .fade)
            (1 - (currentScene.endTime - ct) / transDur) env.width
            nextScene.scene.id)
        else none
      else none
    let hookBar :=
      if currentScene.scene.isHook ∧ time < 5 then
        some (env.width * (1 - time / 5))
      else none
    { cleared := true, currentImage := currentImage, transition := transition,
      vignette := true, hookBar := hookBar }

/-- **C4 (amended).** When the active entry `cur` is within the `0.8 s`
transition window of its end and a next entry with a drawable image exists,
`renderCanvas` composites the next scene's image parameterized by
`q = 1 - (cur.end - clampedTime)/0.8`, `q ∈ (0,1)` — but styled by the
ACTIVE scene's `transitionType` (default `fade`), not the next scene's;
outside the window, when the next image is not drawable, or when no next
entry exists, the next image is not drawn. -/
theorem renderCanvas_transition (env : Env) (time : ℚ) (i : ℕ)
    (cur : TimelineEntry)
    (hne : (getTimeline env.scenes).isEmpty = false)
    (hidx : activeEntryIdx (getTimeline env.scenes) (clampTime env time) = i)
    (hcur : (getTimeline env.scenes)[i]? = some cur) :
    (∀ nxt, (getTimeline env.scenes)[i + 1]? = some nxt →
      cur.endTime - clampTime env time < 8/10 →
      imageDrawable (env.assets nxt.scene.id) = true →
      (renderCanvas env time).transition =
        some (transitionDrawFor (cur.scene.transitionType.getD .fade)
          (1 - (cur.endTime - clampTime env time) / (8/10)) env.width
          nxt.scene.id)) ∧
    (∀ nxt, (getTimeline env.scenes)[i + 1]? = some nxt →
      imageDrawable (env.assets nxt.scene.id) = false →
      (renderCanvas env time).transition = none) ∧
    (¬ cur.endTime - clampTime env time < 8/10 →
      (renderCanvas env time).transition = none) ∧
    ((getTimeline env.scenes)[i + 1]? = none →
      (renderCanvas env time).transition = none) ∧
    (cur.endTime - clampTime env time < 8/10 →
      0 < cur.endTime - clampTime env time →
      0 < 1 - (cur.endTime - clampTime env time) / (8/10) ∧
      1 - (cur.endTime - clampTime env time) / (8/10) < 1) := by
  have hlen : ∀ nxt, (getTimeline env.scenes)[i + 1]? = some nxt →
      i < (getTimeline env.scenes).length - 1 := by
    intro nxt hnxt
    by_contra h
    rw [List.getElem?_eq_none] at hnxt
    · exact absurd hnxt (by simp)
    · have hi : i < (getTimeline env.scenes).length := by
        by_contra hi
        rw [List.getElem?_eq_none (Nat.le_of_not_lt hi)] at hcur
        exact absurd hcur (by simp)
      omega
  refine ⟨?_, ?_, ?_, ?_, ?_⟩
  · intro nxt hnxt hwin hdraw
    simp only [renderCanvas, hne, Bool.false_eq_true, if_false, hidx, hcur,
      Option.getD_some]
    rw [if_pos ⟨hwin, hlen nxt hnxt⟩, hnxt]
    simp only [Option.getD_some, hdraw, if_pos]
  · intro nxt hnxt hdraw
    simp only [renderCanvas, hne, Bool.false_eq_true, if_false, hidx, hcur,
      Option.getD_some]
    by_cases hwin : cur.endTime - clampTime env time < 8/10
    · rw [if_pos ⟨hwin, hlen nxt hnxt⟩, hnxt]
      simp only [Option.getD_some, hdraw, Bool.false_eq_true, if_false]
    · rw [if_neg (by tauto)]
  · intro hwin
    simp only [renderCanvas, hne, Bool.false_eq_true, if_false, hidx, hcur,
      Option.getD_some]
    rw [if_neg (by tauto)]
  · intro hnxt
    have hge : ¬ i < (getTimeline env.scenes).length - 1 := by
      intro hlt
      have : i + 1 < (getTimeline env.scenes).length := by omega
      rw [(List.getElem?_eq_some_iff).mpr ⟨this, rfl⟩] at hnxt
      · exact absurd hnxt (by simp)
    simp only [renderCanvas, hne, Bool.false_eq_true, if_false, hidx, hcur,
      Option.getD_some]
    rw [if_neg (by tauto)]
  · intro hwin hpos
    have h45 : (0 : ℚ) < 8/10 := by norm_num
    constructor
    · have : (cur.endTime - clampTime env time) / (8/10) < 1 :=
        (div_lt_one h45).mpr hwin
      linarith
    · have : 0 < (cur.endTime - clampTime env time) / (8/10) :=
        div_pos hpos h45
      linarith

/-- Two scenes whose requested transitions differ: the active scene asks for
`slide`, the next scene asks for `fade`. -/
def cx4Scenes : List ScriptScene :=
  [ { id := 1, durationEstimate := 4, transitionType := some .slide },
    { id := 2, durationEstimate := 3, transitionType := some .fade } ]

/-- Props for the transition-style counterexample. -/
def cx4Env : Env :=
  { scenes := cx4Scenes, assets := exAssets, bgMusicBuffer := none,
    width := 640, height := 360 }

/-- **C4 counterexample.** At `time = 3.5` (inside the `0.8 s` window before
the first entry's end at `4`), the next scene's requested style is `fade`,
but the composite drawn uses `slide` — the ACTIVE scene's style — refuting
the claim that the next scene's own style is used. -/
theorem transition_style_counterexample :
    cx4Env.scenes[1]? =
      some { id := 2, durationEstimate := 3,
             transitionType := some TransitionType.fade } ∧
    (renderCanvas cx4Env (7/2)).transition =
      some (transitionDrawFor .slide (3/8) 640 2) ∧
    (transitionDrawFor .slide (3/8) 640 2).style ≠ TransitionType.fade := by
  refine ⟨by norm_num [cx4Env, cx4Scenes], ?_, by simp [transitionDrawFor]⟩
  norm_num [renderCanvas, cx4Env, cx4Scenes, getTimeline, buildEntries,
    totalDuration, clampTime, activeEntryIdx, findIndex, imageDrawable,
    exAssets, transitionDrawFor, min_def]

/-- The active timeline entry in the transition example. -/
def cx4Cur : TimelineEntry :=
  ⟨{ id := 1, durationEstimate := 4, transitionType := some .slide }, 0, 4, 4⟩

/-- The next timeline entry in the transition example. -/
def cx4Nxt : TimelineEntry :=
  ⟨{ id := 2, durationEstimate := 3, transitionType := some .fade }, 4, 3, 7⟩

/-- **C4 witness.** The amended transition theorem instantiated at
`time = 3.5` on the two-scene example: all hypotheses hold and the composite
uses the active scene's `slide` style at `q = 3/8`. -/
theorem renderCanvas_transition_witness :
    (getTimeline cx4Env.scenes).isEmpty = false ∧
    activeEntryIdx (getTimeline cx4Env.scenes) (clampTime cx4Env (7/2)) = 0 ∧
    (getTimeline cx4Env.scenes)[0]? = some cx4Cur ∧
    (getTimeline cx4Env.scenes)[0 + 1]? = some cx4Nxt ∧
    cx4Cur.endTime - clampTime cx4Env (7/2) < 8/10 ∧
    imageDrawable (cx4Env.assets cx4Nxt.scene.id) = true ∧
    (renderCanvas cx4Env (7/2)).transition =
      some (transitionDrawFor (cx4Cur.scene.transitionType.getD .fade)
        (1 - (cx4Cur.endTime - clampTime cx4Env (7/2)) / (8/10)) cx4Env.width
        cx4Nxt.scene.id) := by
  have h1 : (getTimeline cx4Env.scenes).isEmpty = false := by
    norm_num [getTimeline, buildEntries, cx4Env, cx4Scenes]
  have h2 : activeEntryIdx (getTimeline cx4Env.scenes) (clampTime cx4Env (7/2)) = 0 := by
    norm_num [activeEntryIdx, findIndex, clampTime, totalDuration, getTimeline,
      buildEntries, cx4Env, cx4Scenes, min_def]
  have h3 : (getTimeline cx4Env.scenes)[0]? = some cx4Cur := by
    norm_num [getTimeline, buildEntries, cx4Env, cx4Scenes, cx4Cur]
  have h4 : (getTimeline cx4Env.scenes)[0 + 1]? = some cx4Nxt := by
    norm_num [getTimeline, buildEntries, cx4Env, cx4Scenes, cx4Nxt]
  have h5 : cx4Cur.endTime - clampTime cx4Env (7/2) < 8/10 := by
    norm_num [cx4Cur, clampTime, totalDuration, getTimeline, buildEntries,
      cx4Env, cx4Scenes, min_def]
  have h6 : imageDrawable (cx4Env.assets cx4Nxt.scene.id) = true := by
    norm_num [imageDrawable, cx4Env, cx4Nxt, exAssets]
  exact ⟨h1, h2, h3, h4, h5, h6,
    (renderCanvas_transition cx4Env (7/2) 0 cx4Cur h1 h2 h3).1 cx4Nxt h4 h5 h6⟩

/-- The per-scene check of `validateAssets` (`part_004` line 61):
`asset` exists, has an `imageElement`, the image is `complete` and its
`naturalWidth` is nonzero.  The asset's `status` field is NOT consulted. -/
def imageReady (a? : Option GeneratedAsset) : Bool :=
  match a? with
  | none => false
  | some a =>
    match a.imageElement with
    | none => false
    | some img => img.complete && (img.naturalWidth != 0)

/-- `validateAssets` of `part_004` (lines 57–66): the early-return-false
loop over the timeline is `List.all`. -/
def validateAssets (env : Env) : Bool :=
  (getTimeline env.scenes).all fun item => imageReady (env.assets item.scene.id)

/-- `MediaRecorder.state` (only the values this component can observe). -/
inductive RecState
  | inactive | recording
deriving DecidableEq, Repr

/-- The MediaRecorder together with the `chunksRef` buffer of
`dataavailable` payload sizes. -/
structure MediaRecorderModel where
  recState : RecState
  chunkSizes : List Nat
deriving DecidableEq, Repr

/-- The component's mutable refs that constitute the playback controller:
`isPlayingRef`, `isRecordingRef`, `startTimeRef` (ms), `pauseTimeRef` (s),
`activeSourcesRef`, `mediaRecorderRef`. -/
structure PlayerState where
  isPlaying : Bool
  isRecording : Bool
  startTime : ℚ
  pauseTime : ℚ
  activeSources : List ScheduledSource
  recorder : Option MediaRecorderModel
deriving DecidableEq, Repr

/-- Observable effects of one controller call: alerts, the
progress/end callbacks, canvas paints, encoder start and the fixed
pre and post roll timers. -/
inductive UEvent
  | alertMsg (msg : String)
  | playbackEnd
  | progress (elapsed total : ℚ) (sceneIdx : Int)
  | renderFrame (out : RenderOutput)
  | encoderStarted
  | preRoll (ms : ℚ)
  | postRoll (ms : ℚ)
  | frameRequested
deriving DecidableEq, Repr

/-- `handleStop` of `part_004` (lines 243–251): stop playing, stop and
release every active audio source, cancel the animation frame; if a
recording is in flight and the recorder is not already inactive, stop the
recorder (a null recorder compares `undefined !== 'inactive'`, i.e. true,
in the source). -/
def handleStop (st : PlayerState) : PlayerState :=
  let st1 := { st with isPlaying := false, activeSources := [] }
  if st1.isRecording &&
      (match st1.recorder with
       | some r => decide (r.recState ≠ RecState.inactive)
       | none => true) then
    { st1 with isRecording := false,
               recorder := st1.recorder.map
                 fun r => { r with recState := RecState.inactive } }
  else st1

/-- `play` of `part_004` (lines 254–261): no-op when already playing;
otherwise anchor the clock so elapsed time continues from `pauseTime`,
schedule audio from `pauseTime`, and start the frame loop.  The second
component is the list of sources this call scheduled. -/
def play (env : Env) (st : PlayerState) (nowMs ctxNow : ℚ) :
    PlayerState × List ScheduledSource :=
  if st.isPlaying then (st, [])
  else
    let clips := scheduleAudio env st.pauseTime ctxNow
    ({ st with isPlaying := true,
               startTime := nowMs - st.pauseTime * 1000,
               activeSources := st.activeSources ++ clips }, clips)

/-- `pause` of `part_004` (lines 262–267): stop the loop, stop all active
sources and record `pauseTime = (Date.now() - startTime) / 1000`.
Note the source recomputes `pauseTime` from the wall clock on every call,
whatever the current state. -/
def pause (st : PlayerState) (nowMs : ℚ) : PlayerState :=
  { st with isPlaying := false, activeSources := [],
            pauseTime := (nowMs - st.startTime) / 1000 }

/-- The deferred 800 ms pre-roll callback of `record` (`part_004`
lines 295–301): start the playback clock at `now`, reset `pauseTime`,
schedule audio from offset `0`. -/
def recordPreRollFire (env : Env) (st : PlayerState) (nowMs ctxNow : ℚ) :
    PlayerState :=
  { st with isPlaying := true, startTime := nowMs, pauseTime := 0,
            activeSources := st.activeSources ++ scheduleAudio env 0 ctxNow }

/-- `record` of `part_004` (lines 268–303) up to the pre-roll timer: stop
any existing playback, refuse with an alert and the end callback when the
timeline is empty or `validateAssets` fails (no encoder is created), and
otherwise create and start the recorder, paint frame 0 and arm the 800 ms
pre-roll.  Encoder creation is modelled as succeeding; the `catch` branch
and mime-type probing are host-environment failures outside this model. -/
def record (env : Env) (st : PlayerState) : PlayerState × List UEvent :=
  let st1 := handleStop st
  if totalDuration env.scenes = 0 then
    (st1, [UEvent.alertMsg "Timeline empty.", UEvent.playbackEnd])
  else if !validateAssets env then
    (st1, [UEvent.alertMsg "Wait for all assets.", UEvent.playbackEnd])
  else
    ({ st1 with isRecording := true,
                recorder := some { recState := RecState.recording,
                                   chunkSizes := [] } },
     [UEvent.encoderStarted, UEvent.renderFrame (renderCanvas env 0),
      UEvent.preRoll 800])

/-- `drawFrame` of `part_004` (lines 139–162) as one tick: nothing when not
playing; past the end, repaint the held final frame and either arm the 1 s
post-roll (recording) or stop and fire the end callback; otherwise emit one
progress notification, paint, and request the next frame. -/
def drawFrame (env : Env) (st : PlayerState) (nowMs : ℚ) :
    PlayerState × List UEvent :=
  if st.isPlaying = false then (st, [])
  else
    let elapsed := (nowMs - st.startTime) / 1000
    let tl := getTimeline env.scenes
    let total := totalDuration env.scenes
    if total ≤ elapsed then
      let out := renderCanvas env (total - 1/1000)
      if st.isRecording then
        (st, [UEvent.renderFrame out, UEvent.postRoll 1000])
      else
        (handleStop st, [UEvent.renderFrame out, UEvent.playbackEnd])
    else
      let ct := min elapsed (total - 1/1000)
      let currentIdx : Int :=
        match findIndex (fun t => decide (t.start ≤ ct) && decide (ct < t.endTime)) tl with
        | some i => (i : Int)
        | none => if 0 < tl.length then ((tl.length - 1 : Nat) : Int) else -1
      (st, [UEvent.progress elapsed total currentIdx,
            UEvent.renderFrame (renderCanvas env elapsed),
            UEvent.frameRequested])

/-- What one `dataavailable` event does to `chunksRef` (`part_004`
line 282): only nonempty payloads are kept. -/
def ondataavailable (chunks : List Nat) (dataSize : Nat) : List Nat :=
  if 0 < dataSize then chunks ++ [dataSize] else chunks

/-- The outcome of the `recorder.onstop` finalization: the assembled blob's
size and whether a download was triggered. -/
structure FinalizeResult where
  blobSize : Nat
  downloadTriggered : Bool
deriving DecidableEq, Repr

/-- `recorder.onstop` of `part_004` (lines 283–290): assemble the chunks
into a blob and unconditionally trigger the anchor-click download — there
is no empty-blob check in this snapshot. -/
def recorderOnStop (chunkSizes : List Nat) : FinalizeResult :=
  { blobSize := chunkSizes.sum, downloadTriggered := true }

/-- `recorder.onstop` of the `part_003` snapshot (lines 344–362): on
`blob.size === 0` it logs and returns WITHOUT downloading; otherwise it
triggers the download. -/
def recorderOnStop003 (chunkSizes : List Nat) : FinalizeResult :=
  if chunkSizes.sum = 0 then
    { blobSize := chunkSizes.sum, downloadTriggered := false }
  else
    { blobSize := chunkSizes.sum, downloadTriggered := true }

/-- A one-scene script whose decoded narration (3 s) is shorter than the
authored estimate (4 s). -/
def cx5Assets : Assets := fun i =>
  if i = 1 then
    some { sceneId := 1, audioBuffer := some ⟨3⟩,
           imageElement := some ⟨true, 100⟩, status := .completed }
  else none

/-- **C5 counterexample.** A decoded audio buffer of duration 3 is present
for the scene, yet `getTimeline` (`part_004`) derives the entry duration
from `durationEstimate = 4`, refuting `duration = audioBuffer.duration`
when the buffer is present. -/
theorem entry_duration_counterexample :
    (cx5Assets 1).bind GeneratedAsset.audioBuffer = some ⟨3⟩ ∧
    (getTimeline [{ id := 1, durationEstimate := 4 }]).map TimelineEntry.duration
      = [4] ∧
    (4 : ℚ) ≠ 3 := by
  refine ⟨by norm_num [cx5Assets], ?_, by norm_num⟩
  norm_num [getTimeline, buildEntries]

/-- **C5 (amended).** In `part_004` every derived entry's duration equals
the scene's `durationEstimate`, whatever the asset map holds (the
application layer separately widens `durationEstimate` to at least the
narration length plus 0.2 s).  Only the older `part_003` timeline uses the
decoded buffer: there, a present buffer with nonzero duration wins, and a
missing buffer falls back to `durationEstimate`. -/
theorem entry_duration_source (scenes : List ScriptScene) (assets : Assets) :
    (∀ e ∈ getTimeline scenes, e.duration = e.scene.durationEstimate) ∧
    (∀ e ∈ getTimeline003 assets scenes,
      (∀ b, (assets e.scene.id).bind GeneratedAsset.audioBuffer = some b →
        b.duration ≠ 0 → e.duration = b.duration) ∧
      ((assets e.scene.id).bind GeneratedAsset.audioBuffer = none →
        e.duration = e.scene.durationEstimate)) := by
  constructor
  · intro e he
    exact (Timeline.mem_buildEntries _ 0 scenes e he).1
  · intro e he
    have hd := (Timeline.mem_buildEntries _ 0 scenes e he).1
    constructor
    · intro b hb hnz
      rw [hd]
      simp [sceneDuration003, hb, hnz]
    · intro hb
      rw [hd]
      simp [sceneDuration003, hb]

/-- **C5 witness.** The amended duration theorem instantiated on the
one-scene example: `part_004` yields duration 4 (the estimate) and
`part_003` yields duration 3 (the buffer). -/
theorem entry_duration_source_witness :
    (⟨{ id := 1, durationEstimate := 4 }, 0, 4, 4⟩ : TimelineEntry) ∈
      getTimeline [{ id := 1, durationEstimate := 4 }] ∧
    (⟨{ id := 1, durationEstimate := 4 }, 0, 4, 4⟩ : TimelineEntry).duration =
      (⟨{ id := 1, durationEstimate := 4 }, 0, 4, 4⟩ : TimelineEntry).scene.durationEstimate ∧
    (⟨{ id := 1, durationEstimate := 4 }, 0, 3, 3⟩ : TimelineEntry) ∈
      getTimeline003 cx5Assets [{ id := 1, durationEstimate := 4 }] ∧
    (⟨{ id := 1, durationEstimate := 4 }, 0, 3, 3⟩ : TimelineEntry).duration =
      AudioBuf.duration ⟨3⟩ := by
  have hm1 : (⟨{ id := 1, durationEstimate := 4 }, 0, 4, 4⟩ : TimelineEntry) ∈
      getTimeline [{ id := 1, durationEstimate := 4 }] := by
    norm_num [getTimeline, buildEntries]
  have hm2 : (⟨{ id := 1, durationEstimate := 4 }, 0, 3, 3⟩ : TimelineEntry) ∈
      getTimeline003 cx5Assets [{ id := 1, durationEstimate := 4 }] := by
    norm_num [getTimeline003, buildEntries, sceneDuration003, cx5Assets]
  refine ⟨hm1, (entry_duration_source [{ id := 1, durationEstimate := 4 }] cx5Assets).1 _ hm1,
          hm2, ?_⟩
  exact ((entry_duration_source [{ id := 1, durationEstimate := 4 }] cx5Assets).2 _ hm2).1
    ⟨3⟩ (by norm_num [cx5Assets]) (by norm_num)

/-- An asset whose image is fully decoded but whose status is still
`loading`. -/
def cx6Assets : Assets := fun i =>
  if i = 1 then
    some { sceneId := 1, audioBuffer := none,
           imageElement := some ⟨true, 100⟩, status := .loading }
  else none

/-- Props for the status-ignoring counterexample. -/
def cx6Env : Env :=
  { scenes := [{ id := 1, durationEstimate := 4 }], assets := cx6Assets,
    bgMusicBuffer := none, width := 640, height := 360 }

/-- The idle controller: not playing, not recording, nothing scheduled. -/
def idleState : PlayerState :=
  { isPlaying := false, isRecording := false, startTime := 0, pauseTime := 0,
    activeSources := [], recorder := none }

/-- **C6 counterexample.** A scene whose asset has a fully decoded image
but status `loading` (not `completed`): the claim demands refusal, yet
`record` starts the encoder, because `validateAssets` never reads the
status field. -/
theorem record_ignores_status_counterexample :
    (cx6Assets 1).map GeneratedAsset.status = some AssetStatus.loading ∧
    AssetStatus.loading ≠ AssetStatus.completed ∧
    (record cx6Env idleState).1.isRecording = true ∧
    UEvent.encoderStarted ∈ (record cx6Env idleState).2 := by
  have hval : validateAssets cx6Env = true := by
    norm_num [validateAssets, getTimeline, buildEntries, cx6Env, imageReady,
      cx6Assets]
  have htot : totalDuration cx6Env.scenes ≠ 0 := by
    norm_num [totalDuration, getTimeline, buildEntries, cx6Env]
  refine ⟨by norm_num [cx6Assets], by simp, ?_, ?_⟩
  · simp [record, htot, hval, handleStop, idleState]
  · simp [record, htot, hval, handleStop, idleState]

/-- **C6 (amended).** `record` refuses — alert, end callback, no encoder,
controller left not playing and not recording, recorder untouched — exactly
when the timeline is empty (`totalDuration = 0`) or some scene in the
timeline lacks a decoded, complete image of nonzero width; the asset's
`status` is not part of the check. -/
theorem record_refusal (env : Env) (st : PlayerState)
    (hrec : st.isRecording = false)
    (hbad : totalDuration env.scenes = 0 ∨
      ∃ e ∈ getTimeline env.scenes, imageReady (env.assets e.scene.id) = false) :
    (record env st).1.isPlaying = false ∧
    (record env st).1.isRecording = false ∧
    (record env st).1.activeSources = [] ∧
    (record env st).1.recorder = st.recorder ∧
    (∃ msg, UEvent.alertMsg msg ∈ (record env st).2) ∧
    UEvent.playbackEnd ∈ (record env st).2 ∧
    UEvent.encoderStarted ∉ (record env st).2 := by
  have hstop : handleStop st = { st with isPlaying := false, activeSources := [] } := by
    simp [handleStop, hrec]
  by_cases htot : totalDuration env.scenes = 0
  · refine ⟨?_, ?_, ?_, ?_, ⟨"Timeline empty.", ?_⟩, ?_, ?_⟩ <;>
      simp [record, htot, hstop, hrec]
  · have hbad' : ∃ e ∈ getTimeline env.scenes,
        imageReady (env.assets e.scene.id) = false := by
      rcases hbad with h | h
      · exact absurd h htot
      · exact h
    have hval : validateAssets env = false := by
      rcases hbad' with ⟨e, he, hf⟩
      unfold validateAssets
      rw [List.all_eq_false]
      exact ⟨e, he, by simp [hf]⟩
    refine ⟨?_, ?_, ?_, ?_, ⟨"Wait for all assets.", ?_⟩, ?_, ?_⟩ <;>
      simp [record, htot, hval, hstop, hrec]

/-- Props with a scene whose asset is entirely missing. -/
def cx6wEnv : Env :=
  { scenes := [{ id := 1, durationEstimate := 4 }], assets := fun _ => none,
    bgMusicBuffer := none, width := 640, height := 360 }

/-- **C6 witness.** The refusal theorem instantiated on a one-scene script
with no asset at all: recording is refused and the controller stays idle. -/
theorem record_refusal_witness :
    idleState.isRecording = false ∧
    (∃ e ∈ getTimeline cx6wEnv.scenes,
      imageReady (cx6wEnv.assets e.scene.id) = false) ∧
    (record cx6wEnv idleState).1.isPlaying = false ∧
    (record cx6wEnv idleState).1.isRecording = false ∧
    UEvent.playbackEnd ∈ (record cx6wEnv idleState).2 ∧
    UEvent.encoderStarted ∉ (record cx6wEnv idleState).2 := by
  have h1 : idleState.isRecording = false := rfl
  have h2 : ∃ e ∈ getTimeline cx6wEnv.scenes,
      imageReady (cx6wEnv.assets e.scene.id) = false := by
    refine ⟨⟨{ id := 1, durationEstimate := 4 }, 0, 4, 4⟩, ?_, ?_⟩
    · norm_num [getTimeline, buildEntries, cx6wEnv]
    · simp [imageReady, cx6wEnv]
  have h := record_refusal cx6wEnv idleState h1 (Or.inr h2)
  exact ⟨h1, h2, h.1, h.2.1, h.2.2.2.2.2.1, h.2.2.2.2.2.2⟩

/-- A controller mid-playback from offset 0 (clock anchored at wall time 0). -/
def exPlayState : PlayerState :=
  { isPlaying := true, isRecording := false, startTime := 0, pauseTime := 0,
    activeSources := [], recorder := none }

/-- Example props bundling the three-scene script with its assets. -/
def exEnv : Env :=
  { scenes := exScenes, assets := exAssets, bgMusicBuffer := none,
    width := 640, height := 360 }

/-- **C7.** Pausing at elapsed time `e` and then calling `play()` schedules
exactly the sources `scheduleAudio` produces for start offset `e` — the
same pass a fresh `play()` at `t0 = e` performs — and they are the only
active sources afterwards (pause cleared the previous ones).  Scheduling
depends only on the offset and the shared audio clock `ctxNow`. -/
theorem pause_then_play_schedules_fresh (env : Env) (st : PlayerState)
    (n1 n2 ctxNow e : ℚ)
    (he : (n1 - st.startTime) / 1000 = e) :
    (play env (pause st n1) n2 ctxNow).2 = scheduleAudio env e ctxNow ∧
    (play env (pause st n1) n2 ctxNow).1.activeSources =
      scheduleAudio env e ctxNow := by
  unfold play pause
  simp [he]

/-- **C7 witness.** Pausing `5.2 s` into playback and resuming schedules
exactly `scheduleAudio` at offset `5.2`. -/
theorem pause_then_play_schedules_fresh_witness :
    ((5200 : ℚ) - exPlayState.startTime) / 1000 = 26/5 ∧
    (play exEnv (pause exPlayState 5200) 6000 10).2 =
      scheduleAudio exEnv (26/5) 10 ∧
    (play exEnv (pause exPlayState 5200) 6000 10).1.activeSources =
      scheduleAudio exEnv (26/5) 10 := by
  have he : ((5200 : ℚ) - exPlayState.startTime) / 1000 = 26/5 := by
    norm_num [exPlayState]
  have h := pause_then_play_schedules_fresh exEnv exPlayState 5200 6000 10 (26/5) he
  exact ⟨he, h.1, h.2⟩

/-- **C8.** On an empty chunk list the assembled blob has zero bytes, yet
the `part_004` `onstop` handler still triggers the download; the `part_003`
snapshot (and the specification) return without downloading.  The claim is
right and the newest snapshot dropped the guard. -/
theorem empty_blob_still_downloaded :
    (recorderOnStop []).blobSize = 0 ∧
    (recorderOnStop []).downloadTriggered = true ∧
    (recorderOnStop003 []).blobSize = 0 ∧
    (recorderOnStop003 []).downloadTriggered = false ∧
    ondataavailable [] 0 = [] := by
  refine ⟨rfl, rfl, rfl, ?_, rfl⟩
  simp [recorderOnStop003]

/-- **C9 (amended).** `pause` is a total function, safe from any state: it
always stops playback, clears every active source, and leaves
`isRecording`, `startTime` and the recorder untouched.  It is NOT
idempotent on `pausedOffset`: a second call recomputes
`pauseTime = (now - startTime)/1000` from the current wall clock, so the
double pause equals a single pause at the second instant. -/
theorem pause_safe_but_offset_recomputed (st : PlayerState) (n1 n2 : ℚ) :
    pause (pause st n1) n2 = pause st n2 ∧
    (pause st n1).isPlaying = false ∧
    (pause st n1).activeSources = [] ∧
    (pause st n1).isRecording = st.isRecording ∧
    (pause st n1).startTime = st.startTime ∧
    (pause st n1).recorder = st.recorder ∧
    (pause st n1).pauseTime = (n1 - st.startTime) / 1000 := by
  unfold pause
  refine ⟨rfl, rfl, rfl, rfl, rfl, rfl, rfl⟩

/-- **C9 counterexample.** First pause at wall time `5200 ms` records
`pausedOffset = 5.2`; a second pause at `7200 ms` (no intervening `play`)
overwrites it with `7.2`, refuting idempotence of the recorded offset. -/
theorem pause_not_idempotent_counterexample :
    (pause exPlayState 5200).pauseTime = 26/5 ∧
    (pause (pause exPlayState 5200) 7200).pauseTime = 36/5 ∧
    (36 : ℚ)/5 ≠ 26/5 := by
  refine ⟨by norm_num [pause, exPlayState], by norm_num [pause, exPlayState],
    by norm_num⟩

/-- Props with no scenes at all. -/
def emptyEnv : Env :=
  { scenes := [], assets := fun _ => none, bgMusicBuffer := none,
    width := 640, height := 360 }

/-- **C10.** `play()` on an empty timeline is safe: the controller enters
the playing state, and the very first tick paints only the cleared black
frame, fires the end callback exactly once, emits no progress
notification, and stops the controller (not playing, no active sources);
any further tick of the stopped controller does nothing. -/
theorem play_empty_timeline_safe (env : Env) (st0 : PlayerState)
    (n1 ctxNow n2 : ℚ)
    (hempty : env.scenes = [])
    (hidle : st0.isPlaying = false)
    (hrec : st0.isRecording = false)
    (hmono : (play env st0 n1 ctxNow).1.startTime ≤ n2) :
    (play env st0 n1 ctxNow).1.isPlaying = true ∧
    drawFrame env (play env st0 n1 ctxNow).1 n2 =
      (handleStop (play env st0 n1 ctxNow).1,
       [UEvent.renderFrame blankFrame, UEvent.playbackEnd]) ∧
    (handleStop (play env st0 n1 ctxNow).1).isPlaying = false ∧
    (handleStop (play env st0 n1 ctxNow).1).isRecording = false ∧
    (handleStop (play env st0 n1 ctxNow).1).activeSources = [] ∧
    (∀ n3, drawFrame env (handleStop (play env st0 n1 ctxNow).1) n3 =
      (handleStop (play env st0 n1 ctxNow).1, [])) := by
  have htot : totalDuration env.scenes = 0 := by
    rw [hempty]; rfl
  have hst1 : (play env st0 n1 ctxNow).1.isPlaying = true := by
    simp [play, hidle]
  have hst1r : (play env st0 n1 ctxNow).1.isRecording = false := by
    simp [play, hidle, hrec]
  have helapsed : totalDuration env.scenes ≤
      (n2 - (play env st0 n1 ctxNow).1.startTime) / 1000 := by
    rw [htot]
    have : (0 : ℚ) < 1000 := by norm_num
    exact div_nonneg (by linarith [hmono]) (by norm_num)
  have hblank : renderCanvas env (totalDuration env.scenes - 1/1000) = blankFrame := by
    simp [renderCanvas, getTimeline, hempty, buildEntries]
  have hstopped : (handleStop (play env st0 n1 ctxNow).1).isPlaying = false ∧
      (handleStop (play env st0 n1 ctxNow).1).isRecording = false ∧
      (handleStop (play env st0 n1 ctxNow).1).activeSources = [] := by
    unfold handleStop
    simp [hst1r]
  refine ⟨hst1, ?_, hstopped.1, hstopped.2.1, hstopped.2.2, ?_⟩
  · unfold drawFrame
    rw [if_neg (by simp [hst1])]
    rw [if_pos helapsed]
    rw [if_neg (by simp [hst1r])]
    rw [hblank]
  · intro n3
    unfold drawFrame
    rw [if_pos (by simp [hstopped.1])]

/-- **C10 witness.** The empty-timeline safety theorem instantiated on the
concrete empty props and the idle controller, first tick at wall time 0. -/
theorem play_empty_timeline_safe_witness :
    emptyEnv.scenes = [] ∧
    idleState.isPlaying = false ∧
    idleState.isRecording = false ∧
    (play emptyEnv idleState 0 0).1.startTime ≤ 0 ∧
    drawFrame emptyEnv (play emptyEnv idleState 0 0).1 0 =
      (handleStop (play emptyEnv idleState 0 0).1,
       [UEvent.renderFrame blankFrame, UEvent.playbackEnd]) := by
  have h4 : (play emptyEnv idleState 0 0).1.startTime ≤ 0 := by
    norm_num [play, idleState]
  exact ⟨rfl, rfl, rfl, h4,
    (play_empty_timeline_safe emptyEnv idleState 0 0 0 rfl rfl rfl h4).2.1⟩
